import Mathlib

/-!
Shallow embedding of `src/fetch_wars.py` (clash-leaderboard).

The program polls a clan-war API, normalizes a war snapshot into per-attack
records, stores them as one sheet per war in a workbook, rebuilds derived
roster / missed-hits views, and computes leaderboards over completed wars.

Modelling conventions:
* A workbook is an association list of (sheet name, list of records).
* Reads of the persistent store may fail (Python exceptions); this is modelled
  by `StoreRead`, with `.error` standing for any exception raised while
  reading and `.missing` for an absent file.
* Cell values that the source writes as the strings `'Yes'` / `'No'` are kept
  as `String`; the truthy test of `get_existing_loot_hits`
  (`['TRUE', True, 'Yes', 'yes', 1]`) is modelled on the string forms
  `["TRUE", "Yes", "yes"]` (the boolean / integer cell variants collapse to
  their textual form in this typed embedding).
* Destruction percentages may be fractional, hence `ℚ`.
* `War End Time` values are compact ISO-like timestamp strings; the window
  cutoff comparison (`pd.to_datetime(...) >= cutoff`) is modelled as the
  lexicographic comparison of those strings, which is order-isomorphic to the
  chronological order on well-formed stamps.
* Python float formatting `f"{x:.1f}"` and `round(x, 2)` are modelled as exact
  rational rounding to tenths / hundredths (`round` on `ℚ`); the two agree
  everywhere except exact decimal half-ties, which no theorem below depends on.
-/

/-- One attack inside a member entry of the API snapshot. -/
structure Attack where
  stars : Nat
  destructionPercentage : ℚ
  deriving Repr, DecidableEq

/-- One clan member inside the API snapshot. -/
structure Member where
  tag : String
  name : String
  townhallLevel : Nat
  mapPosition : Nat
  attacks : List Attack
  deriving Repr, DecidableEq

/-- The war snapshot returned by the API (the fields the program reads).
`warLeagueName = none` models a missing or empty `warLeague` object;
`some none` a `warLeague` object without a `name`. -/
structure WarSnapshot where
  state : String
  preparationStartTime : String
  endTime : String
  teamSize : Nat
  warLeagueName : Option (Option String)
  members : List Member
  deriving Repr, DecidableEq

/-- One row of a war sheet, with the columns written by `process_war`. -/
structure Record where
  warId : String
  warState : String
  warComplete : String
  warEndTime : String
  teamSize : Nat
  playerName : String
  playerTag : String
  townHall : Nat
  mapPosition : Nat
  attackNumber : Nat
  stars : Nat
  destruction : ℚ
  isTriple : String
  isMissed : String
  isLootHit : String
  deriving Repr, DecidableEq

/-- The workbook: named sheets in order, each a list of rows. -/
structure Workbook where
  sheets : List (String × List Record)
  deriving Repr, DecidableEq

def ROSTER_SHEET_NAME : String := "ROSTER"

def MISSED_HITS_SHEET_NAME : String := "MISSED_HITS"

/-- Result of reading the persistent store: the file may be absent
(`os.path.exists` false), the read may raise, or it succeeds. -/
inductive StoreRead where
  | missing : StoreRead
  | error : StoreRead
  | ok : Workbook → StoreRead
  deriving Repr, DecidableEq

/-- Look up a sheet by name in a workbook. -/
def Workbook.sheet (wb : Workbook) (name : String) : Option (List Record) :=
  (wb.sheets.find? (fun p => p.1 == name)).map (·.2)

/-- The character substitution of `get_war_id`: `:` and `.` become `-`. -/
def dash_char (c : Char) : Char :=
  if c = ':' || c = '.' then '-' else c

/-- `get_war_id`: war identifier from the preparation start time (fallback:
end time), with `:` and `.` replaced by `-` (the two single-character
`str.replace` calls are one character map). -/
def get_war_id (war : WarSnapshot) : String :=
  let prep := if war.preparationStartTime = "" then war.endTime
              else war.preparationStartTime
  ⟨prep.data.map dash_char⟩

/-- `is_war_ended`: the war state literal the API uses is `"warEnded"`. -/
def is_war_ended (war : WarSnapshot) : Bool :=
  war.state == "warEnded"

/-- `is_cwl_war`: a league war iff a `warLeague` object is present and its
name is not `"Unranked"` (a missing name counts as a league war). -/
def is_cwl_war (war : WarSnapshot) : Bool :=
  match war.warLeagueName with
  | none => false
  | some nameOpt => nameOpt != some "Unranked"

/-- `war_already_saved`: (found, complete). Any read failure yields
`(false, false)`; completeness is taken from the first row's
`War Complete` cell. -/
def war_already_saved (store : StoreRead) (warId : String) : Bool × Bool :=
  match store with
  | .missing => (false, false)
  | .error => (false, false)
  | .ok wb =>
    let sheetName := warId.take 31
    match wb.sheet sheetName with
    | none => (false, false)
    | some rows =>
      match rows with
      | [] => (true, false)
      | r :: _ => (true, r.warComplete == "Yes")

/-- The truthy cell values accepted for `Is Loot Hit`
(string forms of `['TRUE', True, 'Yes', 'yes', 1]`). -/
def loot_truthy (v : String) : Bool :=
  v == "TRUE" || v == "Yes" || v == "yes"

/-- `get_existing_loot_hits`: per player tag, the attack numbers of rows whose
`Is Loot Hit` cell is truthy, read from the stored sheet of this war.
Any read failure (including a missing sheet) yields the empty mapping. -/
def get_existing_loot_hits (store : StoreRead) (warId : String) :
    String → List Nat :=
  match store with
  | .missing => fun _ => []
  | .error => fun _ => []
  | .ok wb =>
    match wb.sheet (warId.take 31) with
    | none => fun _ => []
    | some rows => fun tag =>
        ((rows.filter (fun r => r.playerTag == tag && loot_truthy r.isLootHit)).map
          (·.attackNumber))

/-- The output of `process_war`. -/
structure ProcessedWar where
  war_id : String
  war_details : List Record
  is_ended : Bool
  deriving Repr, DecidableEq

/-- The record emitted for the `idx`-th (1-based) attack of a member. -/
def attack_record (warId warState : String) (isComplete : Bool)
    (endTime : String) (teamSize : Nat) (existingLoot : String → List Nat)
    (m : Member) (idx : Nat) (a : Attack) : Record :=
  let isMissed := a.stars == 0 && a.destructionPercentage == 0
  let isLoot := idx ∈ existingLoot m.tag
  { warId := warId
    warState := warState
    warComplete := if isComplete then "Yes" else "No"
    warEndTime := endTime
    teamSize := teamSize
    playerName := m.name
    playerTag := m.tag
    townHall := m.townhallLevel
    mapPosition := m.mapPosition
    attackNumber := idx
    stars := a.stars
    destruction := a.destructionPercentage
    isTriple := if a.stars == 3 then "Yes" else "No"
    isMissed := if isMissed then "Yes" else "No"
    isLootHit := if isLoot then "Yes" else "No" }

/-- The sentinel record emitted for a member with no attacks;
its `Is Loot Hit` cell is hard-coded to `"No"`. -/
def sentinel_record (warId warState : String) (isComplete : Bool)
    (endTime : String) (teamSize : Nat) (m : Member) : Record :=
  { warId := warId
    warState := warState
    warComplete := if isComplete then "Yes" else "No"
    warEndTime := endTime
    teamSize := teamSize
    playerName := m.name
    playerTag := m.tag
    townHall := m.townhallLevel
    mapPosition := m.mapPosition
    attackNumber := 0
    stars := 0
    destruction := 0
    isTriple := "No"
    isMissed := "Yes"
    isLootHit := "No" }

/-- The rows emitted for one member: one per attack (1-based numbering),
plus the sentinel when the attack list is empty. -/
def member_records (warId warState : String) (isComplete : Bool)
    (endTime : String) (teamSize : Nat) (existingLoot : String → List Nat)
    (m : Member) : List Record :=
  ((m.attacks.enumFrom 1).map
    (fun p => attack_record warId warState isComplete endTime teamSize
      existingLoot m p.1 p.2)) ++
  (if m.attacks.isEmpty then
    [sentinel_record warId warState isComplete endTime teamSize m]
  else [])

/-- `process_war`: normalize a snapshot into the row list to store, folding in
previously stored loot-hit annotations when `preserve` is set. -/
def process_war (store : StoreRead) (war : Option WarSnapshot)
    (preserve : Bool) : Option ProcessedWar :=
  match war with
  | none => none
  | some w =>
    let warId := get_war_id w
    let existingLoot :=
      if preserve then get_existing_loot_hits store warId else fun _ => []
    let isComplete := is_war_ended w
    some
      { war_id := warId
        war_details :=
          (w.members.map
            (member_records warId w.state isComplete w.endTime w.teamSize
              existingLoot)).flatten
        is_ended := isComplete }

/-- `save_war_to_excel`: replace-on-upsert of the war's sheet (deleted if
present, recreated at the end of the workbook); an empty row list saves
nothing. Returns the new workbook and whether a save happened. -/
def save_war_to_excel (wb : Workbook) (wd : ProcessedWar) : Workbook × Bool :=
  if wd.war_details.isEmpty then (wb, false)
  else
    let sheetName := wd.war_id.take 31
    (⟨(wb.sheets.filter (fun p => p.1 != sheetName)) ++
      [(sheetName, wd.war_details)]⟩, true)

/-- The store-updating slice of `main`: skip when not in war or a CWL war;
otherwise process the snapshot, and save unless the existing sheet is
already marked complete. Reads go through `store`, the write applies to
`wb` (in a coherent run `store = .ok wb`). -/
def main_store_update (store : StoreRead) (wb : Workbook)
    (war : WarSnapshot) : Workbook :=
  if war.state = "notInWar" then wb
  else if is_cwl_war war then wb
  else
    match process_war store (some war) true with
    | none => wb
    | some wd =>
      let checked := war_already_saved store wd.war_id
      if checked.2 then wb
      else (save_war_to_excel wb wd).1

/-- Whether the `main` slice performs a save (reaches `save_war_to_excel`
and actually writes). -/
def main_performs_save (store : StoreRead) (wb : Workbook)
    (war : WarSnapshot) : Bool :=
  if war.state = "notInWar" then false
  else if is_cwl_war war then false
  else
    match process_war store (some war) true with
    | none => false
    | some wd =>
      let checked := war_already_saved store wd.war_id
      if checked.2 then false
      else (save_war_to_excel wb wd).2

/-!  Leaderboard aggregation (`calculate_leaderboard`).  -/

/-- Rounded tenths of `threeStars / totalAttacks * 100`, i.e.
`⌊rate_in_tenths + 1/2⌋` computed in integer arithmetic (models the
one-decimal float formatting of the source); `0` when there are no attacks. -/
def rate_tenths (threeStars totalAttacks : Nat) : Nat :=
  if 0 < totalAttacks then
    (2000 * threeStars + totalAttacks) / (2 * totalAttacks)
  else 0

/-- Render a tenths value as the source's `f"{v:.1f}%"` string. -/
def fmt_tenths (t : Nat) : String :=
  toString (t / 10) ++ "." ++ toString (t % 10) ++ "%"

/-- The `3 Star Rate` column: formatted percentage, or `"0.0%"` when the
player has no qualifying attacks (the division is guarded). -/
def three_star_rate_str (threeStars totalAttacks : Nat) : String :=
  if 0 < totalAttacks then fmt_tenths (rate_tenths threeStars totalAttacks)
  else "0.0%"

/-- The `Avg Stars Per Attack` column in hundredths:
`round(totalStars / totalAttacks, 2)` as `⌊avg*100 + 1/2⌋`, or `0` when the
player has no qualifying attacks (the division is guarded). -/
def avg_stars_hundredths (totalStars totalAttacks : Nat) : Nat :=
  if 0 < totalAttacks then
    (200 * totalStars + totalAttacks) / (2 * totalAttacks)
  else 0

/-- One row of the leaderboard (`player_stats`). The source's final column
projection drops `Three Stars` and `Total Attacks` before serialization; they
are kept here as the computed intermediate values. -/
structure PlayerStats where
  playerName : String
  playerTag : String
  threeStarRate : String
  threeStarRateTenths : Nat
  avgStarsHundredths : Nat
  totalWars : Nat
  totalStars : Nat
  threeStars : Nat
  totalAttacks : Nat
  missedHits : Nat
  deriving Repr, DecidableEq, Inhabited

/-- The sort key order of the final `sort_values`: parsed three-star rate
descending, then missed hits ascending, then total wars descending. -/
def stats_le (a b : PlayerStats) : Prop :=
  b.threeStarRateTenths < a.threeStarRateTenths ∨
    (a.threeStarRateTenths = b.threeStarRateTenths ∧
      (a.missedHits < b.missedHits ∨
        (a.missedHits = b.missedHits ∧ b.totalWars ≤ a.totalWars)))

instance stats_le_decidable : DecidableRel stats_le := fun a b => by
  unfold stats_le; infer_instance

instance stats_le_total : IsTotal PlayerStats stats_le :=
  ⟨fun a b => by unfold stats_le; omega⟩

instance stats_le_trans : IsTrans PlayerStats stats_le :=
  ⟨fun a b c hab hbc => by unfold stats_le at *; omega⟩

/-- Lexicographic (code-point) `≤` on character lists. -/
def chars_le : List Char → List Char → Bool
  | [], _ => true
  | _ :: _, [] => false
  | a :: as, b :: bs =>
    if a.toNat < b.toNat then true
    else if b.toNat < a.toNat then false
    else chars_le as bs

/-- Lexicographic (code-point) `<` on character lists. -/
def chars_lt : List Char → List Char → Bool
  | _, [] => false
  | [], _ :: _ => true
  | a :: as, b :: bs =>
    if a.toNat < b.toNat then true
    else if b.toNat < a.toNat then false
    else chars_lt as bs

/-- The Python string order (code-point lexicographic), `≤`. -/
def str_le (a b : String) : Bool := chars_le a.data b.data

/-- The Python string order (code-point lexicographic), `<`. -/
def str_lt (a b : String) : Bool := chars_lt a.data b.data

/-- The lexicographic `(Player Name, Player Tag)` group-key order used by
`groupby(sort=True)`. -/
def pair_le (a b : String × String) : Prop :=
  (str_lt a.1 b.1 || (a.1 == b.1 && str_le a.2 b.2)) = true

instance pair_le_decidable : DecidableRel pair_le := fun a b => by
  unfold pair_le; infer_instance

/-- One sheet's contribution to the leaderboard scan: an empty sheet and a
sheet whose first row is not marked complete are dropped (the former models
the `iloc[0]` exception path, which skips the sheet); the time-window filter
keeps rows whose war end time is at or after the cutoff. -/
def sheet_window_rows (cutoff : Option String) (rows : List Record) :
    List Record :=
  match rows with
  | [] => []
  | r :: _ =>
    if r.warComplete = "Yes" then
      match cutoff with
      | none => rows
      | some c => rows.filter (fun x => str_le c x.warEndTime)
    else []

/-- All rows of non-derived sheets surviving the completeness check and the
window filter (the concatenated `all_attacks_df`). -/
def filtered_rows (wb : Workbook) (cutoff : Option String) : List Record :=
  ((wb.sheets.filter
      (fun p => p.1 != ROSTER_SHEET_NAME && p.1 != MISSED_HITS_SHEET_NAME)).map
    (fun p => sheet_window_rows cutoff p.2)).flatten

/-- The rows of one `(Player Name, Player Tag)` group. -/
def player_rows (rows : List Record) (name tag : String) : List Record :=
  rows.filter (fun r => r.playerName == name && r.playerTag == tag)

/-- `Total Wars`: the number of distinct war identifiers among the player's
rows (`drop_duplicates` + `nunique`). -/
def total_wars_count (rows : List Record) (name tag : String) : Nat :=
  ((player_rows rows name tag).map (·.warId)).dedup.length

/-- `count_missed` applied to the player's group of `missed_attacks` rows
(rows that are missed or sentinels): a flat `2` when any sentinel row is
present, otherwise the number of missed rows; `0` for a player with no such
rows (the `fillna(0)` of the left merge). -/
def missed_hits_count (rows : List Record) (name tag : String) : Nat :=
  let g := (player_rows rows name tag).filter
    (fun r => r.isMissed == "Yes" || r.attackNumber == 0)
  if g.any (fun r => r.attackNumber == 0) then 2
  else g.countP (fun r => r.isMissed == "Yes")

/-- `combined_df`: qualifying attacks only — not loot-marked, not missed,
attack number positive. -/
def qualifying_rows (rows : List Record) : List Record :=
  rows.filter (fun r =>
    r.isLootHit != "Yes" && r.isMissed != "Yes" && decide (0 < r.attackNumber))

/-- The distinct `(Player Name, Player Tag)` pairs appearing in the rows. -/
def player_pairs (rows : List Record) : List (String × String) :=
  (rows.map (fun r => (r.playerName, r.playerTag))).dedup

/-- The leaderboard row computed for one player group (participation join,
attack statistics with `fillna(0)`, derived rates, missed-hit merge). -/
def player_stats_of (rows : List Record) (p : String × String) : PlayerStats :=
  let q := player_rows (qualifying_rows rows) p.1 p.2
  let stars := (q.map (·.stars)).sum
  let triples := q.countP (fun r => r.isTriple == "Yes")
  let attacks := q.length
  { playerName := p.1
    playerTag := p.2
    threeStarRate := three_star_rate_str triples attacks
    threeStarRateTenths := rate_tenths triples attacks
    avgStarsHundredths := avg_stars_hundredths stars attacks
    totalWars := total_wars_count rows p.1 p.2
    totalStars := stars
    threeStars := triples
    totalAttacks := attacks
    missedHits := missed_hits_count rows p.1 p.2 }

/-- `calculate_leaderboard`: `none` when no filtered-in rows exist or when no
qualifying attack survives the loot/missed filter; otherwise one row per
distinct player pair (in group-key order), sorted by the three-key order. -/
def calculate_leaderboard (wb : Workbook) (cutoff : Option String) :
    Option (List PlayerStats) :=
  let rows := filtered_rows wb cutoff
  if rows.isEmpty then none
  else if (qualifying_rows rows).isEmpty then none
  else some (List.insertionSort stats_le
    ((List.insertionSort pair_le (player_pairs rows)).map
      (player_stats_of rows)))

/-!  Roster view (`update_roster_sheet`).  -/

/-- One row of the roster view. -/
structure RosterEntry where
  playerTag : String
  playerName : String
  lastSeenTH : Nat
  totalWars : Nat
  warsParticipated : Nat
  deriving Repr, DecidableEq

/-- The per-row mutation of `update_roster_sheet` on the matching entry:
bump `Wars Participated` when the row has a positive attack number, and
track the maximal town hall seen. -/
def roster_update_entry (r : Record) (e : RosterEntry) : RosterEntry :=
  if e.playerTag == r.playerTag then
    { e with
      warsParticipated :=
        e.warsParticipated + (if 0 < r.attackNumber then 1 else 0)
      lastSeenTH := max e.lastSeenTH r.townHall }
  else e

/-- The fresh roster entry created for a row whose tag has not been seen. -/
def roster_new_entry (r : Record) : RosterEntry :=
  { playerTag := r.playerTag
    playerName := r.playerName
    lastSeenTH := r.townHall
    totalWars := 0
    warsParticipated := 0 }

/-- Processing one record row in `update_roster_sheet`: create the player's
entry if absent (appended, insertion order), then apply the per-row
mutation to that player's entry. -/
def roster_step (acc : List RosterEntry) (r : Record) : List RosterEntry :=
  let acc1 :=
    if acc.any (fun e => e.playerTag == r.playerTag) then acc
    else acc ++ [roster_new_entry r]
  acc1.map (roster_update_entry r)

/-- All rows scanned by the roster rebuild: every non-derived sheet, in
workbook order. -/
def roster_scan_rows (wb : Workbook) : List Record :=
  ((wb.sheets.filter
      (fun p => p.1 != ROSTER_SHEET_NAME && p.1 != MISSED_HITS_SHEET_NAME)).map
    (·.2)).flatten

/-- The rebuilt roster entries before sorting: fold over all scanned rows,
then set every `Total Wars` to the number of non-derived sheets. -/
def roster_players (wb : Workbook) : List RosterEntry :=
  let entries := (roster_scan_rows wb).foldl roster_step []
  let totalWars :=
    (wb.sheets.filter
      (fun p => p.1 != ROSTER_SHEET_NAME && p.1 != MISSED_HITS_SHEET_NAME)).length
  entries.map (fun e => { e with totalWars := totalWars })

/-- The group order of the roster output (`sort_values('Player Name')`). -/
def roster_name_le (a b : RosterEntry) : Prop :=
  str_le a.playerName b.playerName = true

instance roster_name_le_decidable : DecidableRel roster_name_le := fun a b => by
  unfold roster_name_le; infer_instance

/-- `update_roster_sheet`: the roster view that replaces the prior one. -/
def update_roster (wb : Workbook) : List RosterEntry :=
  List.insertionSort roster_name_le (roster_players wb)

/-- Find a roster entry by player tag. -/
def roster_find (entries : List RosterEntry) (tag : String) :
    Option RosterEntry :=
  entries.find? (fun e => e.playerTag == tag)

/-!  Shared helper lemmas about the normalizer output.  -/

/-- `process_war` on a present snapshot, written out. -/
theorem process_war_eq (store : StoreRead) (w : WarSnapshot) :
    process_war store (some w) true = some
      { war_id := get_war_id w
        war_details := (w.members.map
          (member_records (get_war_id w) w.state (is_war_ended w) w.endTime
            w.teamSize (get_existing_loot_hits store (get_war_id w)))).flatten
        is_ended := is_war_ended w } := rfl

/-- Every row emitted for a member is an attack row (with its 1-based index)
or the sentinel of an attack-less member. -/
theorem mem_member_records_cases {warId warState endTime : String}
    {isComplete : Bool} {teamSize : Nat} {loot : String → List Nat}
    {m : Member} {r : Record}
    (hr : r ∈ member_records warId warState isComplete endTime teamSize loot m) :
    (∃ p ∈ m.attacks.enumFrom 1,
        r = attack_record warId warState isComplete endTime teamSize loot m
          p.1 p.2) ∨
    (m.attacks = [] ∧
      r = sentinel_record warId warState isComplete endTime teamSize m) := by
  unfold member_records at hr
  rcases List.mem_append.mp hr with h | h
  · obtain ⟨p, hp, he⟩ := List.mem_map.mp h
    exact Or.inl ⟨p, hp, he.symm⟩
  · by_cases ha : m.attacks.isEmpty
    · rw [if_pos ha, List.mem_singleton] at h
      exact Or.inr ⟨List.isEmpty_iff.mp ha, h⟩
    · rw [if_neg ha] at h
      cases h

/-- Every row of the processed war comes from some member's rows. -/
theorem mem_process_war_details {store : StoreRead} {w : WarSnapshot}
    {wd : ProcessedWar} (hw : process_war store (some w) true = some wd)
    {r : Record} (hr : r ∈ wd.war_details) :
    ∃ m ∈ w.members,
      r ∈ member_records (get_war_id w) w.state (is_war_ended w) w.endTime
        w.teamSize (get_existing_loot_hits store (get_war_id w)) m := by
  rw [process_war_eq] at hw
  cases Option.some.inj hw
  obtain ⟨l, hl, hrl⟩ := List.mem_flatten.mp hr
  obtain ⟨m, hm, hml⟩ := List.mem_map.mp hl
  exact ⟨m, hm, hml ▸ hrl⟩

/-- A stored attack-style row, used to state concrete examples compactly;
the derived flag cells are filled in the way the normalizer writes them. -/
def sample_row (warId endTime : String) (complete : String)
    (name tag : String) (atkNum stars : Nat) (destr : ℚ)
    (loot : String) : Record :=
  { warId := warId
    warState := if complete == "Yes" then "warEnded" else "inWar"
    warComplete := complete
    warEndTime := endTime
    teamSize := 2
    playerName := name
    playerTag := tag
    townHall := 14
    mapPosition := 1
    attackNumber := atkNum
    stars := stars
    destruction := destr
    isTriple := if stars == 3 then "Yes" else "No"
    isMissed := if stars == 0 && destr == 0 then "Yes" else "No"
    isLootHit := loot }

/-- A snapshot whose raw state is the literal the API uses for an ended war. -/
def ended_snapshot : WarSnapshot :=
  { state := "warEnded"
    preparationStartTime := "20240101T000000"
    endTime := "20240102T000000"
    teamSize := 2
    warLeagueName := some (some "Unranked")
    members := [{ tag := "#A1", name := "Alice", townhallLevel := 14,
                  mapPosition := 1,
                  attacks := [{ stars := 3, destructionPercentage := 100 }] }] }

/-- Claim C5, counterexample: the war-complete flag is computed from the raw
state literal `"warEnded"`, not `"ended"`; a snapshot in state `"warEnded"`
has the flag set although its state field differs from `"ended"`. -/
theorem c5_state_literal_counterexample :
    is_war_ended ended_snapshot = true ∧ ended_snapshot.state ≠ "ended" := by
  decide

/-- Claim C5 (amended): the war-complete flag is true iff the snapshot's
state field equals `"warEnded"`, and the normalizer applies that same flag
value identically (as `"Yes"` / `"No"`) to every record it outputs. -/
theorem c5_complete_flag_uniform (war : WarSnapshot) (store : StoreRead)
    (wd : ProcessedWar) (hw : process_war store (some war) true = some wd) :
    (is_war_ended war = true ↔ war.state = "warEnded") ∧
    ∀ r ∈ wd.war_details,
      r.warComplete = if is_war_ended war then "Yes" else "No" := by
  constructor
  · simp [is_war_ended]
  · intro r hr
    obtain ⟨m, _, hmr⟩ := mem_process_war_details hw hr
    rcases mem_member_records_cases hmr with ⟨p, _, he⟩ | ⟨_, he⟩
    · rw [he]; rfl
    · rw [he]; rfl

/-- Witness for C5: the amended statement evaluated on a concrete ended
snapshot. -/
theorem c5_complete_flag_uniform_witness :
    (is_war_ended ended_snapshot = true ↔ ended_snapshot.state = "warEnded") ∧
    ∀ r ∈ (process_war .missing (some ended_snapshot) true |>.getD
        ⟨"", [], false⟩).war_details,
      r.warComplete = if is_war_ended ended_snapshot then "Yes" else "No" :=
  c5_complete_flag_uniform ended_snapshot .missing
    (process_war .missing (some ended_snapshot) true |>.getD ⟨"", [], false⟩)
    (by decide)

/-- Claim C10: every record with attack number 0 emitted by `process_war` —
the sentinel of an attack-less member — has its loot cell hard-coded to
`"No"`, whatever the existing loot annotation map says (so a loot mark
hand-placed on a sentinel row is never preserved across a re-fetch). -/
theorem c10_sentinel_never_loot (store : StoreRead) (war : WarSnapshot)
    (wd : ProcessedWar) (hw : process_war store (some war) true = some wd)
    (r : Record) (hr : r ∈ wd.war_details) (h0 : r.attackNumber = 0) :
    r.isLootHit = "No" := by
  obtain ⟨m, _, hmr⟩ := mem_process_war_details hw hr
  rcases mem_member_records_cases hmr with ⟨p, hp, he⟩ | ⟨_, he⟩
  · exfalso
    obtain ⟨i, a⟩ := p
    have h1 : 1 ≤ i :=
      (List.mk_mem_enumFrom_iff_le_and_getElem?_sub.mp hp).1
    rw [he] at h0
    simp only [attack_record] at h0
    omega
  · rw [he]; rfl

/-- A war whose only member made no attacks. -/
def c10_war : WarSnapshot :=
  { state := "inWar"
    preparationStartTime := "20240105T000000"
    endTime := "20240107T000000"
    teamSize := 2
    warLeagueName := some (some "Unranked")
    members := [{ tag := "#B2", name := "Bob", townhallLevel := 12,
                  mapPosition := 2, attacks := [] }] }

/-- A stored sheet for that war whose sentinel row carries a hand-placed
loot mark. -/
def c10_store : StoreRead :=
  .ok ⟨[("20240105T000000",
    [sample_row "20240105T000000" "20240107T000000" "No" "Bob" "#B2" 0 0 0
      "Yes"])]⟩

/-- The first (and only) record the re-fetch of that war emits. -/
def c10_row : Record :=
  ((process_war c10_store (some c10_war) true).getD ⟨"", [], false⟩
    ).war_details.headD (sample_row "" "" "No" "" "" 1 0 0 "No")

set_option maxRecDepth 8000 in
/-- Witness for C10: on the concrete store the annotation map does contain
attack number 0 for the tag, yet the emitted sentinel's loot cell is `"No"`. -/
theorem c10_sentinel_never_loot_witness :
    (0 ∈ get_existing_loot_hits c10_store (get_war_id c10_war) "#B2") ∧
    c10_row.isLootHit = "No" :=
  ⟨by decide,
   c10_sentinel_never_loot c10_store c10_war
    ((process_war c10_store (some c10_war) true).getD ⟨"", [], false⟩)
    (by decide) c10_row (by decide) (by decide)⟩

/-- Claim C3: when the existence check reports the stored record set for the
war's identifier as complete, the `main` slice performs no upsert, leaving
the workbook unchanged. -/
theorem c3_complete_never_overwritten (wb : Workbook) (war : WarSnapshot)
    (h : (war_already_saved (.ok wb) (get_war_id war)).2 = true) :
    main_store_update (.ok wb) wb war = wb := by
  unfold main_store_update
  rw [process_war_eq]
  split
  · rfl
  · split
    · rfl
    · simp [h]

/-- A war snapshot whose stored sheet is already complete. -/
def c3_war : WarSnapshot :=
  { state := "inWar"
    preparationStartTime := "20240110T000000"
    endTime := "20240112T000000"
    teamSize := 2
    warLeagueName := some (some "Unranked")
    members := [{ tag := "#C3", name := "Cara", townhallLevel := 13,
                  mapPosition := 1,
                  attacks := [{ stars := 2, destructionPercentage := 70 }] }] }

/-- The stored workbook already holding that war as complete. -/
def c3_wb : Workbook :=
  ⟨[("20240110T000000",
    [sample_row "20240110T000000" "20240112T000000" "Yes" "Cara" "#C3" 1 2 70
      "No"])]⟩

set_option maxRecDepth 8000 in
/-- Witness for C3: the concrete complete sheet is left untouched. -/
theorem c3_complete_never_overwritten_witness :
    main_store_update (.ok c3_wb) c3_wb c3_war = c3_wb :=
  c3_complete_never_overwritten c3_wb c3_war (by decide)

/-- A member always contributes at least one row (attacks or sentinel). -/
theorem member_records_ne_nil (warId warState : String) (isComplete : Bool)
    (endTime : String) (teamSize : Nat) (loot : String → List Nat)
    (m : Member) :
    member_records warId warState isComplete endTime teamSize loot m ≠ [] := by
  unfold member_records
  cases h : m.attacks with
  | nil => simp [h]
  | cons a as => simp [h]

/-- A war with members always has a nonempty record list. -/
theorem process_war_details_ne_nil (store : StoreRead) (w : WarSnapshot)
    (hmem : w.members ≠ []) (wd : ProcessedWar)
    (hw : process_war store (some w) true = some wd) :
    wd.war_details ≠ [] := by
  rw [process_war_eq] at hw
  cases Option.some.inj hw
  cases hm : w.members with
  | nil => exact absurd hm hmem
  | cons m rest =>
    intro hc
    simp only [List.map_cons, List.flatten_cons, List.append_eq_nil] at hc
    exact member_records_ne_nil _ _ _ _ _ _ m hc.1

/-- Claim C9: any error while reading the store makes the existence check
report (found = false, complete = false) and the loot read return the empty
mapping; consequently the run treats the stored war as absent and
incomplete — it proceeds to save (overwriting whatever is stored) and every
record it saves carries no loot mark. -/
theorem c9_read_error_treated_as_absent (warId : String) (wb : Workbook)
    (war : WarSnapshot) (hstate : war.state ≠ "notInWar")
    (hcwl : is_cwl_war war = false) (hmem : war.members ≠ []) :
    war_already_saved .error warId = (false, false) ∧
    (∀ tag, get_existing_loot_hits .error warId tag = []) ∧
    main_performs_save .error wb war = true ∧
    (∀ wd, process_war .error (some war) true = some wd →
      ∀ r ∈ wd.war_details, r.isLootHit = "No") := by
  refine ⟨rfl, fun tag => rfl, ?_, ?_⟩
  · unfold main_performs_save
    rw [if_neg hstate,
      if_neg (show ¬is_cwl_war war = true by simp [hcwl])]
    split
    · next heq => rw [process_war_eq] at heq; cases heq
    · next wd heq =>
      have hne := process_war_details_ne_nil .error war hmem wd heq
      show (if (war_already_saved StoreRead.error wd.war_id).2 = true
        then false else (save_war_to_excel wb wd).2) = true
      rw [if_neg (fun h => Bool.noConfusion h)]
      unfold save_war_to_excel
      rw [if_neg (fun h => hne (List.isEmpty_iff.mp h))]
  · intro wd hw r hr
    obtain ⟨m, _, hmr⟩ := mem_process_war_details hw hr
    rcases mem_member_records_cases hmr with ⟨p, hp, he⟩ | ⟨_, he⟩
    · rw [he]
      simp [attack_record, get_existing_loot_hits]
    · rw [he]; rfl

set_option maxRecDepth 8000 in
/-- Witness for C9: the error path evaluated on the concrete workbook whose
stored sheet for this very war is complete — the erroring run would still
save over it. -/
theorem c9_read_error_treated_as_absent_witness :
    war_already_saved .error "20240110T000000" = (false, false) ∧
    (∀ tag, get_existing_loot_hits .error "20240110T000000" tag = []) ∧
    main_performs_save .error c3_wb c3_war = true ∧
    (∀ wd, process_war .error (some c3_war) true = some wd →
      ∀ r ∈ wd.war_details, r.isLootHit = "No") :=
  c9_read_error_treated_as_absent "20240110T000000" c3_wb c3_war
    (by decide) (by decide) (by decide)

/-- Reading the loot map of a war whose sheet is present. -/
theorem get_existing_loot_hits_ok (wb : Workbook) (warId : String)
    (rows : List Record) (h : wb.sheet (warId.take 31) = some rows)
    (tag : String) :
    get_existing_loot_hits (.ok wb) warId tag =
      (rows.filter (fun r => r.playerTag == tag && loot_truthy r.isLootHit)).map
        (·.attackNumber) := by
  simp only [get_existing_loot_hits]
  rw [h]

/-- After a replace-on-upsert, looking the sheet up returns the new rows. -/
theorem sheet_upsert (wb : Workbook) (name : String) (rows : List Record) :
    (Workbook.mk ((wb.sheets.filter (fun p => p.1 != name)) ++
      [(name, rows)])).sheet name = some rows := by
  unfold Workbook.sheet
  rw [List.find?_append]
  have h1 : (wb.sheets.filter (fun p => p.1 != name)).find?
      (fun p => p.1 == name) = none := by
    rw [List.find?_eq_none]
    intro x hx
    have h2 := (List.mem_filter.mp hx).2
    simp only [bne_iff_ne, ne_eq] at h2
    simp [h2]
  rw [h1]
  simp

/-- Claim C2: on a run over a war whose stored sheet is not yet complete, a
stored loot-hit mark for (player tag, attack number) survives the
read-back-and-reapply round trip: if the fresh snapshot still contains that
attack, the record set saved by this run still marks it as a loot hit. -/
theorem c2_loot_hit_preserved (wb : Workbook) (war : WarSnapshot)
    (oldRows : List Record)
    (hsheet : wb.sheet ((get_war_id war).take 31) = some oldRows)
    (old : Record) (hold : old ∈ oldRows)
    (hloot : loot_truthy old.isLootHit = true)
    (m : Member) (hm : m ∈ war.members) (htag : m.tag = old.playerTag)
    (a : Attack) (ha : (old.attackNumber, a) ∈ m.attacks.enumFrom 1)
    (hstate : war.state ≠ "notInWar") (hcwl : is_cwl_war war = false)
    (hnc : (war_already_saved (.ok wb) (get_war_id war)).2 = false) :
    ∃ newRows, (main_store_update (.ok wb) wb war).sheet
        ((get_war_id war).take 31) = some newRows ∧
      ∃ r ∈ newRows, r.playerTag = old.playerTag ∧
        r.attackNumber = old.attackNumber ∧ r.isLootHit = "Yes" := by
  have hNmem : old.attackNumber ∈
      get_existing_loot_hits (.ok wb) (get_war_id war) m.tag := by
    rw [get_existing_loot_hits_ok wb _ oldRows hsheet]
    exact List.mem_map.mpr
      ⟨old, List.mem_filter.mpr ⟨hold, by simp [htag, hloot]⟩, rfl⟩
  have hrmem_m :
      attack_record (get_war_id war) war.state (is_war_ended war) war.endTime
          war.teamSize (get_existing_loot_hits (.ok wb) (get_war_id war)) m
          old.attackNumber a ∈
        member_records (get_war_id war) war.state (is_war_ended war)
          war.endTime war.teamSize
          (get_existing_loot_hits (.ok wb) (get_war_id war)) m := by
    unfold member_records
    exact List.mem_append.mpr
      (Or.inl (List.mem_map.mpr ⟨(old.attackNumber, a), ha, rfl⟩))
  have hrdet :
      attack_record (get_war_id war) war.state (is_war_ended war) war.endTime
          war.teamSize (get_existing_loot_hits (.ok wb) (get_war_id war)) m
          old.attackNumber a ∈
        (war.members.map
          (member_records (get_war_id war) war.state (is_war_ended war)
            war.endTime war.teamSize
            (get_existing_loot_hits (.ok wb) (get_war_id war)))).flatten :=
    List.mem_flatten.mpr ⟨_, List.mem_map.mpr ⟨m, hm, rfl⟩, hrmem_m⟩
  have hne : (war.members.map
      (member_records (get_war_id war) war.state (is_war_ended war)
        war.endTime war.teamSize
        (get_existing_loot_hits (.ok wb) (get_war_id war)))).flatten ≠ [] :=
    List.ne_nil_of_mem hrdet
  have hstep : main_store_update (.ok wb) wb war =
      Workbook.mk ((wb.sheets.filter
          (fun p => p.1 != (get_war_id war).take 31)) ++
        [((get_war_id war).take 31,
          (war.members.map
            (member_records (get_war_id war) war.state (is_war_ended war)
              war.endTime war.teamSize
              (get_existing_loot_hits (.ok wb) (get_war_id war)))).flatten)]) := by
    unfold main_store_update
    rw [if_neg hstate,
      if_neg (show ¬is_cwl_war war = true by simp [hcwl]), process_war_eq]
    show (if (war_already_saved (.ok wb) (get_war_id war)).2 = true
        then wb
        else (save_war_to_excel wb
          ⟨get_war_id war,
           (war.members.map
             (member_records (get_war_id war) war.state (is_war_ended war)
               war.endTime war.teamSize
               (get_existing_loot_hits (.ok wb) (get_war_id war)))).flatten,
           is_war_ended war⟩).1) = _
    rw [if_neg (by simp [hnc])]
    unfold save_war_to_excel
    rw [if_neg (fun h => hne (List.isEmpty_iff.mp h))]
  rw [hstep, sheet_upsert]
  refine ⟨_, rfl, ?_⟩
  refine ⟨_, hrdet, htag, rfl, ?_⟩
  show (if old.attackNumber ∈
      get_existing_loot_hits (.ok wb) (get_war_id war) m.tag
    then "Yes" else "No") = "Yes"
  rw [if_pos hNmem]

/-- An in-progress war being re-fetched with identical attack data. -/
def c2_war : WarSnapshot :=
  { state := "inWar"
    preparationStartTime := "20240120T000000"
    endTime := "20240122T000000"
    teamSize := 2
    warLeagueName := some (some "Unranked")
    members := [{ tag := "#E5", name := "Eve", townhallLevel := 15,
                  mapPosition := 1,
                  attacks := [{ stars := 2, destructionPercentage := 80 },
                              { stars := 3, destructionPercentage := 100 }] }] }

/-- The stored row whose second attack was hand-marked as a loot hit. -/
def c2_old : Record :=
  sample_row "20240120T000000" "20240122T000000" "No" "Eve" "#E5" 2 3 100 "Yes"

/-- The stored (not yet complete) sheet of that war. -/
def c2_wb : Workbook :=
  ⟨[("20240120T000000",
    [sample_row "20240120T000000" "20240122T000000" "No" "Eve" "#E5" 1 2 80
      "No",
     c2_old])]⟩

set_option maxRecDepth 8000 in
/-- Witness for C2: re-fetching the concrete in-progress war keeps the loot
mark on (tag #E5, attack 2) in the sheet the run saves. -/
theorem c2_loot_hit_preserved_witness :
    ∃ newRows, (main_store_update (.ok c2_wb) c2_wb c2_war).sheet
        ((get_war_id c2_war).take 31) = some newRows ∧
      ∃ r ∈ newRows, r.playerTag = c2_old.playerTag ∧
        r.attackNumber = c2_old.attackNumber ∧ r.isLootHit = "Yes" :=
  c2_loot_hit_preserved c2_wb c2_war
    [sample_row "20240120T000000" "20240122T000000" "No" "Eve" "#E5" 1 2 80
      "No", c2_old]
    (by decide) c2_old (by decide) (by decide)
    { tag := "#E5", name := "Eve", townhallLevel := 15, mapPosition := 1,
      attacks := [{ stars := 2, destructionPercentage := 80 },
                  { stars := 3, destructionPercentage := 100 }] }
    (by decide) (by decide) { stars := 3, destructionPercentage := 100 }
    (by decide) (by decide) (by decide) (by decide)

/-!  Shared lemmas about the leaderboard pipeline.  -/

/-- `calculate_leaderboard` produces a result iff rows survive both filters,
and then it is the doubly sorted per-player map. -/
theorem calculate_leaderboard_eq_some (wb : Workbook) (cutoff : Option String)
    (h1 : filtered_rows wb cutoff ≠ [])
    (h2 : qualifying_rows (filtered_rows wb cutoff) ≠ []) :
    calculate_leaderboard wb cutoff = some
      (List.insertionSort stats_le
        ((List.insertionSort pair_le
          (player_pairs (filtered_rows wb cutoff))).map
            (player_stats_of (filtered_rows wb cutoff)))) := by
  simp only [calculate_leaderboard]
  rw [if_neg (fun h => h1 (List.isEmpty_iff.mp h)),
      if_neg (fun h => h2 (List.isEmpty_iff.mp h))]

/-- Inversion: a produced leaderboard is the doubly sorted per-player map. -/
theorem calculate_leaderboard_some_inv {wb : Workbook} {cutoff : Option String}
    {out : List PlayerStats} (h : calculate_leaderboard wb cutoff = some out) :
    out = List.insertionSort stats_le
      ((List.insertionSort pair_le
        (player_pairs (filtered_rows wb cutoff))).map
          (player_stats_of (filtered_rows wb cutoff))) := by
  simp only [calculate_leaderboard] at h
  split_ifs at h
  exact (Option.some.inj h).symm

/-- The entries of a produced leaderboard are exactly the per-player stats of
the distinct player pairs of the filtered rows. -/
theorem mem_leaderboard_iff {wb : Workbook} {cutoff : Option String}
    {out : List PlayerStats} (h : calculate_leaderboard wb cutoff = some out)
    (e : PlayerStats) :
    e ∈ out ↔ ∃ p ∈ player_pairs (filtered_rows wb cutoff),
      e = player_stats_of (filtered_rows wb cutoff) p := by
  rw [calculate_leaderboard_some_inv h,
    (List.perm_insertionSort stats_le _).mem_iff, List.mem_map]
  constructor
  · rintro ⟨p, hp, he⟩
    exact ⟨p, (List.perm_insertionSort pair_le _).mem_iff.mp hp, he.symm⟩
  · rintro ⟨p, hp, he⟩
    exact ⟨p, (List.perm_insertionSort pair_le _).mem_iff.mpr hp, he.symm⟩

/-- `count_missed` over the player's missed-or-sentinel rows, re-expressed
over all of the player's rows. -/
theorem missed_hits_count_eq (rows : List Record) (name tag : String) :
    missed_hits_count rows name tag =
      if (player_rows rows name tag).any (fun r => r.attackNumber == 0) then 2
      else (player_rows rows name tag).countP
        (fun r => r.isMissed == "Yes") := by
  simp only [missed_hits_count]
  have hc : ((player_rows rows name tag).filter
      (fun r => r.isMissed == "Yes" || r.attackNumber == 0)).any
        (fun r => r.attackNumber == 0) =
      (player_rows rows name tag).any (fun r => r.attackNumber == 0) := by
    rw [List.any_filter]
    congr 1
    funext r
    by_cases h1 : r.attackNumber = 0 <;> simp [h1]
  have hcnt : ((player_rows rows name tag).filter
      (fun r => r.isMissed == "Yes" || r.attackNumber == 0)).countP
        (fun r => r.isMissed == "Yes") =
      (player_rows rows name tag).countP (fun r => r.isMissed == "Yes") := by
    rw [List.countP_filter]
    congr 1
    funext r
    by_cases h1 : r.isMissed = "Yes" <;> simp [h1]
  rw [hc, hcnt]

/-- The missed-hit aggregation as the specification words it: evaluated per
war — exactly 2 for a war in which the player has a sentinel (attack number
0) row, otherwise the number of is-missed rows of the player in that war —
summed across all wars of the filtered set. Stated from the spec to compare
with the source's pooled `missed_hits_count`. -/
def spec_missed_hits (rows : List Record) (name tag : String) : Nat :=
  ((((player_rows rows name tag).map (·.warId)).dedup).map (fun w =>
    let wr := (player_rows rows name tag).filter (fun r => r.warId == w)
    if wr.any (fun r => r.attackNumber == 0) then 2
    else wr.countP (fun r => r.isMissed == "Yes"))).sum

/-- Two complete wars: player P has a sentinel row in war w1 and two missed
attack rows in war w2; player Q has a three-star attack in w1 (so the
aggregator produces output). -/
def c1_wb : Workbook :=
  ⟨[("w1", [sample_row "w1" "20240201T000000" "Yes" "P" "#P" 0 0 0 "No",
            sample_row "w1" "20240201T000000" "Yes" "Q" "#Q" 1 3 100 "No"]),
    ("w2", [sample_row "w2" "20240205T000000" "Yes" "P" "#P" 1 0 0 "No",
            sample_row "w2" "20240205T000000" "Yes" "P" "#P" 2 0 0 "No"])]⟩

set_option maxRecDepth 8000 in
/-- Claim C1, counterexample: the code pools a player's missed/sentinel rows
across all wars — P (sentinel in w1, two missed rows in w2) gets a missed-hit
count of 2, while the per-war sum the claim demands is 2 + 2 = 4. -/
theorem c1_missed_hits_counterexample :
    ((calculate_leaderboard c1_wb none).getD []).map
        (fun e => (e.playerName, e.missedHits)) = [("Q", 0), ("P", 2)] ∧
    spec_missed_hits (filtered_rows c1_wb none) "P" "#P" = 4 := by
  decide

/-- Claim C1 (amended): a player's leaderboard missed-hit count is a flat 2
whenever the player has a sentinel row in any war of the filtered set,
otherwise the total number of is-missed rows of that player pooled across
the whole filtered set (the evaluation is per player, not per war). -/
theorem c1_missed_hits_pooled (wb : Workbook) (cutoff : Option String)
    (out : List PlayerStats) (hout : calculate_leaderboard wb cutoff = some out)
    (e : PlayerStats) (he : e ∈ out) :
    e.missedHits =
      if (player_rows (filtered_rows wb cutoff) e.playerName e.playerTag).any
          (fun r => r.attackNumber == 0) then 2
      else (player_rows (filtered_rows wb cutoff) e.playerName
          e.playerTag).countP (fun r => r.isMissed == "Yes") := by
  obtain ⟨p, _, he'⟩ := (mem_leaderboard_iff hout e).mp he
  subst he'
  show missed_hits_count (filtered_rows wb cutoff) p.1 p.2 =
    if (player_rows (filtered_rows wb cutoff) p.1 p.2).any
        (fun r => r.attackNumber == 0) then 2
    else (player_rows (filtered_rows wb cutoff) p.1 p.2).countP
        (fun r => r.isMissed == "Yes")
  exact missed_hits_count_eq _ _ _

/-- The P entry of the concrete leaderboard (zero qualifying attacks). -/
def c1_p_entry : PlayerStats :=
  ((calculate_leaderboard c1_wb none).getD []).getD 1 default

set_option maxRecDepth 8000 in
/-- Witness for C1 (amended): the pooled rule evaluated at P in the concrete
two-war workbook. -/
theorem c1_missed_hits_pooled_witness :
    c1_p_entry.missedHits =
      if (player_rows (filtered_rows c1_wb none) c1_p_entry.playerName
          c1_p_entry.playerTag).any (fun r => r.attackNumber == 0) then 2
      else (player_rows (filtered_rows c1_wb none) c1_p_entry.playerName
          c1_p_entry.playerTag).countP (fun r => r.isMissed == "Yes") :=
  c1_missed_hits_pooled c1_wb none ((calculate_leaderboard c1_wb none).getD [])
    (by decide) c1_p_entry (by decide)

/-- Claim C8: a leaderboard entry with zero qualifying attacks carries the
exact rate string `"0.0%"` and an average of 0 — the guarded branch, never a
division. -/
theorem c8_zero_attacks_rate (wb : Workbook) (cutoff : Option String)
    (out : List PlayerStats) (hout : calculate_leaderboard wb cutoff = some out)
    (e : PlayerStats) (he : e ∈ out) (h0 : e.totalAttacks = 0) :
    e.threeStarRate = "0.0%" ∧ e.avgStarsHundredths = 0 := by
  obtain ⟨p, _, he'⟩ := (mem_leaderboard_iff hout e).mp he
  subst he'
  have hlen : (player_rows (qualifying_rows (filtered_rows wb cutoff)) p.1
      p.2).length = 0 := h0
  constructor
  · show three_star_rate_str _
      (player_rows (qualifying_rows (filtered_rows wb cutoff)) p.1 p.2).length
      = "0.0%"
    rw [hlen]
    rfl
  · show avg_stars_hundredths _
      (player_rows (qualifying_rows (filtered_rows wb cutoff)) p.1 p.2).length
      = 0
    rw [hlen]
    rfl

set_option maxRecDepth 8000 in
/-- Witness for C8: player P of the concrete workbook has zero qualifying
attacks and gets `"0.0%"` and average 0. -/
theorem c8_zero_attacks_rate_witness :
    c1_p_entry.threeStarRate = "0.0%" ∧ c1_p_entry.avgStarsHundredths = 0 :=
  c8_zero_attacks_rate c1_wb none ((calculate_leaderboard c1_wb none).getD [])
    (by decide) c1_p_entry (by decide) (by decide)

/-- One complete war whose only record is a sentinel: every row is filtered
out of the qualifying set. -/
def c7_wb : Workbook :=
  ⟨[("w1", [sample_row "w1" "20240210T000000" "Yes" "P" "#P" 0 0 0 "No"])]⟩

set_option maxRecDepth 8000 in
/-- Claim C7, counterexample: with no qualifying attack anywhere the
aggregator returns nothing at all, although player P appears in a record of
the filtered set — so P does not appear in any leaderboard output. -/
theorem c7_participation_counterexample :
    calculate_leaderboard c7_wb none = none ∧
    (filtered_rows c7_wb none).any
      (fun r => r.playerName == "P" && r.playerTag == "#P") = true := by
  decide

/-- Claim C7 (amended): provided at least one qualifying attack survives in
the filtered set, every player appearing in any record of the set appears in
the leaderboard, with total-attacks = 0 when none of their rows qualify;
when no qualifying attack exists the aggregator returns no output at all. -/
theorem c7_participation_amended (wb : Workbook) (cutoff : Option String)
    (r : Record) (hr : r ∈ filtered_rows wb cutoff)
    (hq : qualifying_rows (filtered_rows wb cutoff) ≠ []) :
    ∃ out, calculate_leaderboard wb cutoff = some out ∧
      ∃ e ∈ out, e.playerName = r.playerName ∧ e.playerTag = r.playerTag ∧
        (player_rows (qualifying_rows (filtered_rows wb cutoff)) r.playerName
            r.playerTag = [] → e.totalAttacks = 0) := by
  have hrows : filtered_rows wb cutoff ≠ [] := List.ne_nil_of_mem hr
  refine ⟨_, calculate_leaderboard_eq_some wb cutoff hrows hq, ?_⟩
  have hp : (r.playerName, r.playerTag) ∈
      player_pairs (filtered_rows wb cutoff) :=
    List.mem_dedup.mpr (List.mem_map.mpr ⟨r, hr, rfl⟩)
  refine ⟨player_stats_of (filtered_rows wb cutoff)
    (r.playerName, r.playerTag), ?_, rfl, rfl, ?_⟩
  · rw [(List.perm_insertionSort stats_le _).mem_iff]
    exact List.mem_map.mpr
      ⟨_, (List.perm_insertionSort pair_le _).mem_iff.mpr hp, rfl⟩
  · intro hnil
    show (player_rows (qualifying_rows (filtered_rows wb cutoff))
      r.playerName r.playerTag).length = 0
    rw [hnil]
    rfl

set_option maxRecDepth 8000 in
/-- Witness for C7 (amended): in the concrete two-war workbook, the
attack-less player P (present only through sentinel and missed rows)
appears in the output. -/
theorem c7_participation_amended_witness :
    ∃ out, calculate_leaderboard c1_wb none = some out ∧
      ∃ e ∈ out,
        e.playerName =
          (sample_row "w1" "20240201T000000" "Yes" "P" "#P" 0 0 0
            "No").playerName ∧
        e.playerTag =
          (sample_row "w1" "20240201T000000" "Yes" "P" "#P" 0 0 0
            "No").playerTag ∧
        (player_rows (qualifying_rows (filtered_rows c1_wb none))
            (sample_row "w1" "20240201T000000" "Yes" "P" "#P" 0 0 0
              "No").playerName
            (sample_row "w1" "20240201T000000" "Yes" "P" "#P" 0 0 0
              "No").playerTag = [] →
          e.totalAttacks = 0) :=
  c7_participation_amended c1_wb none
    (sample_row "w1" "20240201T000000" "Yes" "P" "#P" 0 0 0 "No")
    (by decide) (by decide)

/-- Scenario C of the spec: player X with a 100% three-star rate over 1 war,
player Y with a 50% rate over 3 wars. -/
def c6_wb : Workbook :=
  ⟨[("w1", [sample_row "w1" "20240301T000000" "Yes" "X" "#X" 1 3 100 "No",
            sample_row "w1" "20240301T000000" "Yes" "Y" "#Y" 0 0 0 "No"]),
    ("w2", [sample_row "w2" "20240305T000000" "Yes" "Y" "#Y" 1 3 100 "No"]),
    ("w3", [sample_row "w3" "20240309T000000" "Yes" "Y" "#Y" 1 2 90 "No"])]⟩

set_option maxRecDepth 8000 in
/-- Claim C6: every produced leaderboard is sorted by three-star-rate
descending, then missed hits ascending, then total wars descending; and in
scenario C the 100%-rate single-war player X precedes the 50%-rate
three-war player Y. -/
theorem c6_sort_order :
    (∀ (wb : Workbook) (cutoff : Option String) (out : List PlayerStats),
      calculate_leaderboard wb cutoff = some out →
        List.Sorted stats_le out) ∧
    ((calculate_leaderboard c6_wb none).getD []).map
        (fun e => (e.playerName, e.threeStarRate, e.totalWars)) =
      [("X", "100.0%", 1), ("Y", "50.0%", 3)] := by
  constructor
  · intro wb cutoff out hout
    rw [calculate_leaderboard_some_inv hout]
    exact List.sorted_insertionSort stats_le _
  · decide

set_option maxRecDepth 8000 in
/-- Witness for C6: the sortedness statement applied to the concrete
scenario-C leaderboard. -/
theorem c6_sort_order_witness :
    List.Sorted stats_le ((calculate_leaderboard c6_wb none).getD []) :=
  c6_sort_order.1 c6_wb none ((calculate_leaderboard c6_wb none).getD [])
    (by decide)

/-- The `Wars Participated` value recorded for a tag (0 when absent). -/
def wars_participated_of (entries : List RosterEntry) (tag : String) : Nat :=
  match roster_find entries tag with
  | some e => e.warsParticipated
  | none => 0

/-- The per-row mutation never changes the player tag. -/
theorem roster_update_entry_tag (r : Record) (e : RosterEntry) :
    (roster_update_entry r e).playerTag = e.playerTag := by
  unfold roster_update_entry
  split <;> rfl

/-- `find?` by tag commutes with mapping a tag-preserving function. -/
theorem find_tag_map (f : RosterEntry → RosterEntry)
    (hf : ∀ e, (f e).playerTag = e.playerTag) (l : List RosterEntry)
    (tag : String) :
    (l.map f).find? (fun e => e.playerTag == tag) =
      (l.find? (fun e => e.playerTag == tag)).map f := by
  induction l with
  | nil => rfl
  | cons e es ih =>
    by_cases h : (e.playerTag == tag) = true
    · rw [List.map_cons, List.find?_cons_of_pos _ (by rw [hf e]; exact h),
        @List.find?_cons_of_pos _ (fun x => x.playerTag == tag) e es h]
      rfl
    · rw [List.map_cons, List.find?_cons_of_neg _ (by rw [hf e]; exact h),
        @List.find?_cons_of_neg _ (fun x => x.playerTag == tag) e es h, ih]

/-- The wars-participated effect of mapping the per-row mutation over a
roster list. -/
theorem wars_participated_of_map_update (r : Record) (l : List RosterEntry)
    (tag : String) :
    wars_participated_of (l.map (roster_update_entry r)) tag =
      wars_participated_of l tag +
        (match roster_find l tag with
         | none => 0
         | some _ =>
           if r.playerTag == tag && decide (0 < r.attackNumber) then 1
           else 0) := by
  unfold wars_participated_of roster_find
  rw [find_tag_map (roster_update_entry r) (roster_update_entry_tag r) l tag]
  cases hf : l.find? (fun e => e.playerTag == tag) with
  | none => rfl
  | some e =>
    have he : e.playerTag = tag := by
      have h2 := List.find?_some hf
      simpa using h2
    simp only [Option.map_some']
    unfold roster_update_entry
    by_cases h : (e.playerTag == r.playerTag) = true
    · rw [if_pos h]
      have htr : (r.playerTag == tag) = true := by
        rw [beq_iff_eq] at h ⊢
        rw [← h, he]
      simp [htr]
    · rw [if_neg h]
      have htr : (r.playerTag == tag) = false := by
        rw [beq_iff_eq] at h
        rw [beq_eq_false_iff_ne]
        intro hc
        exact h (by rw [he, hc])
      simp [htr]

/-- `find?` by tag over an appended roster list. -/
theorem roster_find_append (l1 l2 : List RosterEntry) (tag : String) :
    roster_find (l1 ++ l2) tag =
      (roster_find l1 tag).or (roster_find l2 tag) := by
  unfold roster_find
  rw [List.find?_append]

/-- One row of the roster scan adds 1 to the player's wars-participated
count exactly when the row is that player's and has a positive attack
number. -/
theorem wars_participated_roster_step (acc : List RosterEntry) (r : Record)
    (tag : String) :
    wars_participated_of (roster_step acc r) tag =
      wars_participated_of acc tag +
        (if r.playerTag == tag && decide (0 < r.attackNumber) then 1
         else 0) := by
  simp only [roster_step]
  by_cases hany : (acc.any (fun e => e.playerTag == r.playerTag)) = true
  · rw [if_pos hany, wars_participated_of_map_update]
    by_cases htag : (r.playerTag == tag) = true
    · have hex : ∃ e ∈ acc, (e.playerTag == tag) = true := by
        obtain ⟨e, he, hp⟩ := List.any_eq_true.mp hany
        refine ⟨e, he, ?_⟩
        rw [beq_iff_eq] at hp htag ⊢
        rw [hp, htag]
      have hfind : (roster_find acc tag).isSome = true := by
        unfold roster_find
        rw [List.find?_isSome]
        exact hex
      cases hf : roster_find acc tag with
      | none => rw [hf] at hfind; cases hfind
      | some e2 => rfl
    · have hf2 : (r.playerTag == tag) = false := by
        simpa using htag
      cases roster_find acc tag <;> simp [hf2]
  · rw [if_neg hany, wars_participated_of_map_update]
    unfold wars_participated_of
    rw [roster_find_append]
    cases hf : roster_find acc tag with
    | some e => rfl
    | none =>
      simp only [Option.none_or]
      have hnew : roster_find [roster_new_entry r] tag =
          if (r.playerTag == tag) = true then some (roster_new_entry r)
          else none := by
        unfold roster_find
        by_cases htag : (r.playerTag == tag) = true
        · rw [if_pos htag,
            @List.find?_cons_of_pos _ (fun x => x.playerTag == tag)
              (roster_new_entry r) [] htag]
        · rw [if_neg htag,
            @List.find?_cons_of_neg _ (fun x => x.playerTag == tag)
              (roster_new_entry r) [] htag]
          rfl
      rw [hnew]
      by_cases htag : (r.playerTag == tag) = true
      · rw [if_pos htag]
        simp [roster_new_entry]
      · rw [if_neg htag]
        have hf2 : (r.playerTag == tag) = false := by simpa using htag
        simp [hf2]

/-- Folding the whole roster scan counts one increment per qualifying row. -/
theorem wars_participated_foldl (rows : List Record) :
    ∀ (acc : List RosterEntry) (tag : String),
      wars_participated_of (rows.foldl roster_step acc) tag =
        wars_participated_of acc tag +
          rows.countP
            (fun r => r.playerTag == tag && decide (0 < r.attackNumber)) := by
  induction rows with
  | nil => intro acc tag; simp
  | cons r rs ih =>
    intro acc tag
    rw [List.foldl_cons, ih, wars_participated_roster_step, List.countP_cons]
    omega

/-- Mapping a function that keeps tag and wars-participated is invisible to
the count. -/
theorem wars_participated_of_map (f : RosterEntry → RosterEntry)
    (hf : ∀ e, (f e).playerTag = e.playerTag)
    (hw : ∀ e, (f e).warsParticipated = e.warsParticipated)
    (l : List RosterEntry) (tag : String) :
    wars_participated_of (l.map f) tag = wars_participated_of l tag := by
  unfold wars_participated_of roster_find
  rw [find_tag_map f hf l tag]
  cases l.find? (fun e => e.playerTag == tag) with
  | none => rfl
  | some e => exact hw e

/-- Setting `Total Wars` afterwards does not change wars-participated. -/
theorem wars_participated_roster_players (wb : Workbook) (tag : String) :
    wars_participated_of (roster_players wb) tag =
      wars_participated_of ((roster_scan_rows wb).foldl roster_step [])
        tag := by
  simp only [roster_players]
  exact wars_participated_of_map
    (fun e => { e with totalWars :=
      (wb.sheets.filter (fun p => p.1 != ROSTER_SHEET_NAME &&
        p.1 != MISSED_HITS_SHEET_NAME)).length })
    (fun e => rfl) (fun e => rfl) _ tag

/-- Claim C4 (amended): in the rebuilt roster, a player's wars-participated
counter equals the total number of attack-number > 0 rows of that player
across all scanned record sets — one increment per qualifying row, so a
single war with two attacks raises it by two, not by at most one. -/
theorem c4_wars_participated_per_row (wb : Workbook) (tag : String) :
    wars_participated_of (roster_players wb) tag =
      (roster_scan_rows wb).countP
        (fun r => r.playerTag == tag && decide (0 < r.attackNumber)) := by
  rw [wars_participated_roster_players, wars_participated_foldl]
  simp [wars_participated_of, roster_find]

/-- One war record set in which player R made two attacks. -/
def c4_wb : Workbook :=
  ⟨[("w1", [sample_row "w1" "20240315T000000" "Yes" "R" "#R" 1 3 100 "No",
            sample_row "w1" "20240315T000000" "Yes" "R" "#R" 2 2 80 "No"])]⟩

set_option maxRecDepth 8000 in
/-- Claim C4, counterexample: after scanning a single stored war record set
the wars-participated counter of player R is already 2 — the counter rises
once per attack row, not at most once per war. -/
theorem c4_roster_increment_counterexample :
    (roster_find (roster_players c4_wb) "#R").map (·.warsParticipated) =
      some 2 ∧
    (c4_wb.sheets.filter (fun p =>
      p.1 != ROSTER_SHEET_NAME && p.1 != MISSED_HITS_SHEET_NAME)).length
      = 1 := by
  decide
